import Mathlib

/-!
Verification development for the clblast-rs binding layer.

The development shallowly embeds the shape-safe dispatch and
error-translation core of the crate: the status-code translator
(`result.rs`), the dimensional invariant checks and native dispatch of the
vector operations (`axpy.rs`, `copy.rs`, `swap.rs`, `scal.rs`, `dot.rs`,
`dotc.rs`, `sum.rs`, `asum.rs`, `max.rs`, `min.rs`, `amax.rs`, `amin.rs`),
the matrix-multiply dispatch (`gemm.rs`, `lib.rs`), and the buffer
abstractions.  A native call is modelled by the record of arguments the
wrapper passes to the FFI entry point; a Rust `assert!` failure is
modelled as an `Except.error` carrying the panic message, so that "the
native entry point is never invoked after a failed assert" is visible as
the absence of a call record.
-/

namespace Clblast

/-! ### Status-code constants

Modelled from the spec: the `CLBlastStatusCode` constants used by
`result.rs` come from the bindgen-generated bindings of the `clblast-sys`
crate, which are produced by `build.rs` from the upstream CLBlast C header
and are not part of the checked-in sources.  The spec (§4.1) describes
them as "a closed set of named constants defined upstream"; the numeric
values below are the upstream CLBlast header's `CLBlastStatusCode`
values. -/

def CLBlastStatusCode__CLBlastSuccess : Int := 0
def CLBlastStatusCode__CLBlastOpenCLCompilerNotAvailable : Int := -3
def CLBlastStatusCode__CLBlastTempBufferAllocFailure : Int := -4
def CLBlastStatusCode__CLBlastOpenCLOutOfResources : Int := -5
def CLBlastStatusCode__CLBlastOpenCLOutOfHostMemory : Int := -6
def CLBlastStatusCode__CLBlastOpenCLBuildProgramFailure : Int := -11
def CLBlastStatusCode__CLBlastInvalidValue : Int := -30
def CLBlastStatusCode__CLBlastInvalidCommandQueue : Int := -36
def CLBlastStatusCode__CLBlastInvalidMemObject : Int := -38
def CLBlastStatusCode__CLBlastInvalidBinary : Int := -42
def CLBlastStatusCode__CLBlastInvalidBuildOptions : Int := -43
def CLBlastStatusCode__CLBlastInvalidProgram : Int := -44
def CLBlastStatusCode__CLBlastInvalidProgramExecutable : Int := -45
def CLBlastStatusCode__CLBlastInvalidKernelName : Int := -46
def CLBlastStatusCode__CLBlastInvalidKernelDefinition : Int := -47
def CLBlastStatusCode__CLBlastInvalidKernel : Int := -48
def CLBlastStatusCode__CLBlastInvalidArgIndex : Int := -49
def CLBlastStatusCode__CLBlastInvalidArgValue : Int := -50
def CLBlastStatusCode__CLBlastInvalidArgSize : Int := -51
def CLBlastStatusCode__CLBlastInvalidKernelArgs : Int := -52
def CLBlastStatusCode__CLBlastInvalidLocalNumDimensions : Int := -53
def CLBlastStatusCode__CLBlastInvalidLocalThreadsTotal : Int := -54
def CLBlastStatusCode__CLBlastInvalidLocalThreadsDim : Int := -55
def CLBlastStatusCode__CLBlastInvalidGlobalOffset : Int := -56
def CLBlastStatusCode__CLBlastInvalidEventWaitList : Int := -57
def CLBlastStatusCode__CLBlastInvalidEvent : Int := -58
def CLBlastStatusCode__CLBlastInvalidOperation : Int := -59
def CLBlastStatusCode__CLBlastInvalidBufferSize : Int := -61
def CLBlastStatusCode__CLBlastInvalidGlobalWorkSize : Int := -63

def CLBlastStatusCode__CLBlastNotImplemented : Int := -1024
def CLBlastStatusCode__CLBlastInvalidMatrixA : Int := -1022
def CLBlastStatusCode__CLBlastInvalidMatrixB : Int := -1021
def CLBlastStatusCode__CLBlastInvalidMatrixC : Int := -1020
def CLBlastStatusCode__CLBlastInvalidVectorX : Int := -1019
def CLBlastStatusCode__CLBlastInvalidVectorY : Int := -1018
def CLBlastStatusCode__CLBlastInvalidDimension : Int := -1017
def CLBlastStatusCode__CLBlastInvalidLeadDimA : Int := -1016
def CLBlastStatusCode__CLBlastInvalidLeadDimB : Int := -1015
def CLBlastStatusCode__CLBlastInvalidLeadDimC : Int := -1014
def CLBlastStatusCode__CLBlastInvalidIncrementX : Int := -1013
def CLBlastStatusCode__CLBlastInvalidIncrementY : Int := -1012
def CLBlastStatusCode__CLBlastInsufficientMemoryA : Int := -1011
def CLBlastStatusCode__CLBlastInsufficientMemoryB : Int := -1010
def CLBlastStatusCode__CLBlastInsufficientMemoryC : Int := -1009
def CLBlastStatusCode__CLBlastInsufficientMemoryX : Int := -1008
def CLBlastStatusCode__CLBlastInsufficientMemoryY : Int := -1007

def CLBlastStatusCode__CLBlastInsufficientMemoryTemp : Int := -2050
def CLBlastStatusCode__CLBlastInvalidBatchCount : Int := -2049
def CLBlastStatusCode__CLBlastInvalidOverrideKernel : Int := -2048
def CLBlastStatusCode__CLBlastMissingOverrideParameter : Int := -2047
def CLBlastStatusCode__CLBlastInvalidLocalMemUsage : Int := -2046
def CLBlastStatusCode__CLBlastNoHalfPrecision : Int := -2045
def CLBlastStatusCode__CLBlastNoDoublePrecision : Int := -2044
def CLBlastStatusCode__CLBlastInvalidVectorScalar : Int := -2043
def CLBlastStatusCode__CLBlastInsufficientMemoryScalar : Int := -2042
def CLBlastStatusCode__CLBlastDatabaseError : Int := -2041
def CLBlastStatusCode__CLBlastUnknownError : Int := -2036
def CLBlastStatusCode__CLBlastUnexpectedError : Int := -2035

/-! ### Error taxonomy (`clblast/src/result.rs`) -/

/-- Tier 1 of the error taxonomy: OpenCL runtime errors
(`result.rs` lines 7-37, `enum OclError`). -/
inductive OclError where
  | OpenCLCompilerNotAvailable
  | TempBufferAllocFailure
  | OpenCLOutOfResources
  | OpenCLOutOfHostMemory
  | OpenCLBuildProgramFailure
  | InvalidValue
  | InvalidCommandQueue
  | InvalidMemObject
  | InvalidBinary
  | InvalidBuildOptions
  | InvalidProgram
  | InvalidProgramExecutable
  | InvalidKernelName
  | InvalidKernelDefinition
  | InvalidKernel
  | InvalidArgIndex
  | InvalidArgValue
  | InvalidArgSize
  | InvalidKernelArgs
  | InvalidLocalNumDimensions
  | InvalidLocalThreadsTotal
  | InvalidLocalThreadsDim
  | InvalidGlobalOffset
  | InvalidEventWaitList
  | InvalidEvent
  | InvalidOperation
  | InvalidBufferSize
  | InvalidGlobalWorkSize
  deriving DecidableEq, Fintype

/-- `OclError::from_c` (`result.rs` lines 39-96).  The Rust `match` on the
named status-code constants is rendered as the equivalent chain of
equality tests; the first arm maps the success sentinel to `None`, the
wildcard arm also yields `None`. -/
def OclError.from_c (status_code : Int) : Option OclError :=
  if status_code = CLBlastStatusCode__CLBlastSuccess then none
  else if status_code = CLBlastStatusCode__CLBlastOpenCLCompilerNotAvailable then
    some .OpenCLCompilerNotAvailable
  else if status_code = CLBlastStatusCode__CLBlastTempBufferAllocFailure then
    some .TempBufferAllocFailure
  else if status_code = CLBlastStatusCode__CLBlastOpenCLOutOfResources then
    some .OpenCLOutOfResources
  else if status_code = CLBlastStatusCode__CLBlastOpenCLOutOfHostMemory then
    some .OpenCLOutOfHostMemory
  else if status_code = CLBlastStatusCode__CLBlastOpenCLBuildProgramFailure then
    some .OpenCLBuildProgramFailure
  else if status_code = CLBlastStatusCode__CLBlastInvalidValue then some .InvalidValue
  else if status_code = CLBlastStatusCode__CLBlastInvalidCommandQueue then
    some .InvalidCommandQueue
  else if status_code = CLBlastStatusCode__CLBlastInvalidMemObject then some .InvalidMemObject
  else if status_code = CLBlastStatusCode__CLBlastInvalidBinary then some .InvalidBinary
  else if status_code = CLBlastStatusCode__CLBlastInvalidBuildOptions then
    some .InvalidBuildOptions
  else if status_code = CLBlastStatusCode__CLBlastInvalidProgram then some .InvalidProgram
  else if status_code = CLBlastStatusCode__CLBlastInvalidProgramExecutable then
    some .InvalidProgramExecutable
  else if status_code = CLBlastStatusCode__CLBlastInvalidKernelName then
    some .InvalidKernelName
  else if status_code = CLBlastStatusCode__CLBlastInvalidKernelDefinition then
    some .InvalidKernelDefinition
  else if status_code = CLBlastStatusCode__CLBlastInvalidKernel then some .InvalidKernel
  else if status_code = CLBlastStatusCode__CLBlastInvalidArgIndex then some .InvalidArgIndex
  else if status_code = CLBlastStatusCode__CLBlastInvalidArgValue then some .InvalidArgValue
  else if status_code = CLBlastStatusCode__CLBlastInvalidArgSize then some .InvalidArgSize
  else if status_code = CLBlastStatusCode__CLBlastInvalidKernelArgs then
    some .InvalidKernelArgs
  else if status_code = CLBlastStatusCode__CLBlastInvalidLocalNumDimensions then
    some .InvalidLocalNumDimensions
  else if status_code = CLBlastStatusCode__CLBlastInvalidLocalThreadsTotal then
    some .InvalidLocalThreadsTotal
  else if status_code = CLBlastStatusCode__CLBlastInvalidLocalThreadsDim then
    some .InvalidLocalThreadsDim
  else if status_code = CLBlastStatusCode__CLBlastInvalidGlobalOffset then
    some .InvalidGlobalOffset
  else if status_code = CLBlastStatusCode__CLBlastInvalidEventWaitList then
    some .InvalidEventWaitList
  else if status_code = CLBlastStatusCode__CLBlastInvalidEvent then some .InvalidEvent
  else if status_code = CLBlastStatusCode__CLBlastInvalidOperation then some .InvalidOperation
  else if status_code = CLBlastStatusCode__CLBlastInvalidBufferSize then
    some .InvalidBufferSize
  else if status_code = CLBlastStatusCode__CLBlastInvalidGlobalWorkSize then
    some .InvalidGlobalWorkSize
  else none

/-- Tier 2 of the error taxonomy: BLAS argument errors
(`result.rs` lines 98-117, `enum BlasError`). -/
inductive BlasError where
  | NotImplemented
  | InvalidMatrixA
  | InvalidMatrixB
  | InvalidMatrixC
  | InvalidVectorX
  | InvalidVectorY
  | InvalidDimension
  | InvalidLeadDimA
  | InvalidLeadDimB
  | InvalidLeadDimC
  | InvalidIncrementX
  | InvalidIncrementY
  | InsufficientMemoryA
  | InsufficientMemoryB
  | InsufficientMemoryC
  | InsufficientMemoryX
  | InsufficientMemoryY
  deriving DecidableEq, Fintype

/-- `BlasError::from_c` (`result.rs` lines 119-144). -/
def BlasError.from_c (status_code : Int) : Option BlasError :=
  if status_code = CLBlastStatusCode__CLBlastNotImplemented then some .NotImplemented
  else if status_code = CLBlastStatusCode__CLBlastInvalidMatrixA then some .InvalidMatrixA
  else if status_code = CLBlastStatusCode__CLBlastInvalidMatrixB then some .InvalidMatrixB
  else if status_code = CLBlastStatusCode__CLBlastInvalidMatrixC then some .InvalidMatrixC
  else if status_code = CLBlastStatusCode__CLBlastInvalidVectorX then some .InvalidVectorX
  else if status_code = CLBlastStatusCode__CLBlastInvalidVectorY then some .InvalidVectorY
  else if status_code = CLBlastStatusCode__CLBlastInvalidDimension then some .InvalidDimension
  else if status_code = CLBlastStatusCode__CLBlastInvalidLeadDimA then some .InvalidLeadDimA
  else if status_code = CLBlastStatusCode__CLBlastInvalidLeadDimB then some .InvalidLeadDimB
  else if status_code = CLBlastStatusCode__CLBlastInvalidLeadDimC then some .InvalidLeadDimC
  else if status_code = CLBlastStatusCode__CLBlastInvalidIncrementX then
    some .InvalidIncrementX
  else if status_code = CLBlastStatusCode__CLBlastInvalidIncrementY then
    some .InvalidIncrementY
  else if status_code = CLBlastStatusCode__CLBlastInsufficientMemoryA then
    some .InsufficientMemoryA
  else if status_code = CLBlastStatusCode__CLBlastInsufficientMemoryB then
    some .InsufficientMemoryB
  else if status_code = CLBlastStatusCode__CLBlastInsufficientMemoryC then
    some .InsufficientMemoryC
  else if status_code = CLBlastStatusCode__CLBlastInsufficientMemoryX then
    some .InsufficientMemoryX
  else if status_code = CLBlastStatusCode__CLBlastInsufficientMemoryY then
    some .InsufficientMemoryY
  else none

/-- Tier 3 of the error taxonomy: library-internal errors
(`result.rs` lines 146-160, `enum BlastError`). -/
inductive BlastError where
  | InsufficientMemoryTemp
  | InvalidBatchCount
  | InvalidOverrideKernel
  | MissingOverrideParameter
  | InvalidLocalMemUsage
  | NoHalfPrecision
  | NoDoublePrecision
  | InvalidVectorScalar
  | InsufficientMemoryScalar
  | DatabaseError
  | UnknownError
  | UnexpectedError
  deriving DecidableEq, Fintype

/-- `BlastError::from_c` (`result.rs` lines 162-192).  The first arm in
the source is a guard `_ if status_code == ...InsufficientMemoryTemp`,
which is the same equality test as the other arms. -/
def BlastError.from_c (status_code : Int) : Option BlastError :=
  if status_code = CLBlastStatusCode__CLBlastInsufficientMemoryTemp then
    some .InsufficientMemoryTemp
  else if status_code = CLBlastStatusCode__CLBlastInvalidBatchCount then
    some .InvalidBatchCount
  else if status_code = CLBlastStatusCode__CLBlastInvalidOverrideKernel then
    some .InvalidOverrideKernel
  else if status_code = CLBlastStatusCode__CLBlastMissingOverrideParameter then
    some .MissingOverrideParameter
  else if status_code = CLBlastStatusCode__CLBlastInvalidLocalMemUsage then
    some .InvalidLocalMemUsage
  else if status_code = CLBlastStatusCode__CLBlastNoHalfPrecision then some .NoHalfPrecision
  else if status_code = CLBlastStatusCode__CLBlastNoDoublePrecision then
    some .NoDoublePrecision
  else if status_code = CLBlastStatusCode__CLBlastInvalidVectorScalar then
    some .InvalidVectorScalar
  else if status_code = CLBlastStatusCode__CLBlastInsufficientMemoryScalar then
    some .InsufficientMemoryScalar
  else if status_code = CLBlastStatusCode__CLBlastDatabaseError then some .DatabaseError
  else if status_code = CLBlastStatusCode__CLBlastUnknownError then some .UnknownError
  else if status_code = CLBlastStatusCode__CLBlastUnexpectedError then some .UnexpectedError
  else none

/-- The top-level error union (`result.rs` lines 194-200, `enum Error`). -/
inductive Error where
  | Ocl (source : OclError)
  | Blas (source : BlasError)
  | Blast (source : BlastError)
  | Unknown (status_code : Int)
  deriving DecidableEq

/-- `Error::from_c` (`result.rs` lines 209-219): success maps to `None`,
otherwise tier 1 is consulted, then tier 2, then tier 3, and finally the
`Unknown` fallback carrying the raw status code. -/
def Error.from_c (status_code : Int) : Option Error :=
  if status_code = CLBlastStatusCode__CLBlastSuccess then none
  else
    (((OclError.from_c status_code).map Error.Ocl).orElse
      (fun _ => ((BlasError.from_c status_code).map Error.Blas).orElse
        (fun _ => ((BlastError.from_c status_code).map Error.Blast).orElse
          (fun _ => some (Error.Unknown status_code)))))

/-- `Error::from_c_either` (`result.rs` lines 203-208): Rust
`Result<(), Error>` is rendered as `Except Error Unit`. -/
def Error.from_c_either (status_code : Int) : Except Error Unit :=
  match Error.from_c status_code with
  | some err => .error err
  | none => .ok ()

/-! ### Scalars and their wire representation

The binding layer never computes with floating-point values: scalars are
moved between host structs and the FFI boundary unchanged.  An `f32`
(resp. `f64`) is therefore embedded as its 32-bit (resp. 64-bit) pattern;
field equality of the embedding is bit-for-bit equality of the source
values. -/

/-- The bit pattern of a Rust `f32`. -/
structure F32 where
  bits : Nat
  deriving DecidableEq

/-- The bit pattern of a Rust `f64`. -/
structure F64 where
  bits : Nat
  deriving DecidableEq

/-- `num_complex::Complex32`: a pair of `f32` components. -/
structure Complex32 where
  re : F32
  im : F32
  deriving DecidableEq

/-- `num_complex::Complex64`: a pair of `f64` components. -/
structure Complex64 where
  re : F64
  im : F64
  deriving DecidableEq

/-- The generated binding type `cl_float2` whose single field is
`s: [f32; 2]`; the two-element array is rendered as an ordered pair. -/
structure cl_float2 where
  s : F32 × F32
  deriving DecidableEq

/-- The generated binding type `cl_double2` whose single field is
`s: [f64; 2]`. -/
structure cl_double2 where
  s : F64 × F64
  deriving DecidableEq

/-- Modelled from the spec: the trait `ReprSys` and its impls are not in
the checked-in sources (only the call sites `self.alpha.to_c()` in
`gemm.rs`, `axpy.rs` and `scal.rs` are).  Spec §4.2: a complex scalar
converts to the two-element wire struct holding `[real, imaginary]`;
`gemm.rs` lines 158-163 build the same value inline as
`cl_float2` with `s: [self.alpha.re, self.alpha.im]`. -/
def Complex32.to_c (z : Complex32) : cl_float2 :=
  { s := (z.re, z.im) }

/-- Modelled from the spec: the `ReprSys` conversion for
`num_complex::Complex64`, the double-precision analogue of
`Complex32.to_c`. -/
def Complex64.to_c (z : Complex64) : cl_double2 :=
  { s := (z.re, z.im) }

/-- `trait NeutralAdd` (`lib.rs` lines 116-122): the additive identity
constant of a scalar type. -/
class NeutralAdd (T : Type) where
  zero : T

/-- `impl NeutralAdd for f32 ... zero = 0.0` (`lib.rs` line 121);
`0x00000000` is the IEEE-754 pattern of `0.0f32`. -/
instance : NeutralAdd F32 := ⟨⟨0x00000000⟩⟩

/-- `trait NeutralMul` (`lib.rs` lines 124-130): the multiplicative
identity constant of a scalar type. -/
class NeutralMul (T : Type) where
  one : T

/-- `impl NeutralMul for f32 ... one = 1.0` (`lib.rs` line 129);
`0x3F800000` is the IEEE-754 pattern of `1.0f32`. -/
instance : NeutralMul F32 := ⟨⟨0x3F800000⟩⟩

/-! ### Panic and assert

A failed Rust `assert!`/`assert_eq!` aborts the call before the FFI entry
point is reached; it is modelled as an `Except.error` carrying the panic
message, and a wrapper's `run` returns the record of FFI arguments on the
success path, so an asserted run that fails produces no call record. -/

/-- A Rust panic raised by a failed assertion, carrying its message. -/
structure RustPanic where
  message : String
  deriving DecidableEq

/-! ### Buffer abstractions -/

/-- The external `ocl::Buffer<T>` device-memory handle; the binding layer
only ever consults its element length `len()`, so only that is kept. -/
structure OclBuffer where
  len : Nat
  deriving DecidableEq

/-- Modelled from the spec: `VectorBuffer<T>` is declared in a module that
is not among the checked-in sources (only its builder calls and the field
uses `v.buffer` / `v.offset` appear).  Spec §3 gives its shape:
a borrowed view holding the device buffer and an element offset. -/
structure VectorBuffer where
  buffer : OclBuffer
  offset : Nat
  deriving DecidableEq

/-- The layout tag carried by the `MatrixLayout` trait
(`lib.rs` lines 31-46: `LayoutColMajor`, `LayoutRowMajor`). -/
inductive MatrixLayoutKind where
  | RowMajor
  | ColMajor
  deriving DecidableEq

/-- `MatrixLayout::to_c` (`lib.rs` lines 36-46): the CLBlastLayout value
of the generated bindings (upstream header: row-major 101,
column-major 102). -/
def MatrixLayoutKind.to_c : MatrixLayoutKind → Nat
  | .RowMajor => 101
  | .ColMajor => 102

/-- `enum MatrixTranspose` (`lib.rs` lines 48-52). -/
inductive MatrixTranspose where
  | Yes
  | No
  | Conjugate
  deriving DecidableEq

/-- `MatrixTranspose::to_c` (`lib.rs` lines 54-62): the CLBlastTranspose
value of the generated bindings (upstream header: no 111, yes 112,
conjugate 113). -/
def MatrixTranspose.to_c : MatrixTranspose → Nat
  | .Yes => 112
  | .No => 111
  | .Conjugate => 113

/-- `MatrixBuffer<T, L>` (`lib.rs` lines 91-97).  In `lib.rs` the layout
`L` lives only at the type level (`PhantomData<L>`); the draft variant in
`gemm.rs` stores it as a field (`self.a.layout.to_c()`).  The embedding
stores the layout tag as a field standing for the type parameter `L`; the
element type `T` plays no role in the dispatch logic and is dropped. -/
structure MatrixBuffer where
  rows : Nat
  columns : Nat
  offset : Nat
  buffer : OclBuffer
  layout : MatrixLayoutKind
  deriving DecidableEq

/-- `MatrixBuffer::new(columns, rows, buffer)` (`lib.rs` lines 104-113):
asserts `rows * columns <= buffer.len()` and constructs the view with
offset 0.  The layout argument stands for the `L` type parameter of the
surrounding impl. -/
def MatrixBuffer.new (layout : MatrixLayoutKind) (columns rows : Nat) (buffer : OclBuffer) :
    Except RustPanic MatrixBuffer :=
  if rows * columns ≤ buffer.len then
    .ok { rows := rows, columns := columns, offset := 0, buffer := buffer, layout := layout }
  else
    .error ⟨"assertion failed: rows * columns <= buffer.len()"⟩

/-! ### Vector operations (level 1)

Each operation file declares a `TypedBuilder` descriptor, a free function
`assert_dimensions`, and one `run` impl per scalar type.  The four
per-scalar impls of an operation are identical apart from the native
symbol and the wire form of the scalar, and all call the shared
`assert_dimensions` first; the embedding gives the descriptor, the
assert, and the `f32` dispatch, whose success value records the arguments
passed to the native entry point (opaque pointers dropped, element
offsets and strides kept, in the order the source passes them).  The
`queue` field is an opaque external handle and is dropped. -/

/-- The argument record of a `CLBlastSaxpy` call
(`axpy.rs` lines 56-67). -/
structure AxpyCall (S : Type) where
  routine : String
  n : Nat
  alpha : S
  x_offset : Nat
  x_stride : Nat
  y_offset : Nat
  y_stride : Nat
  deriving DecidableEq

/-- `struct VectorAxpy<'a, T>` (`axpy.rs` lines 13-35). -/
structure VectorAxpy (S : Type) where
  alpha : S
  n : Nat
  x_vector : VectorBuffer
  y_vector : VectorBuffer
  x_stride : Nat
  y_stride : Nat

/-- The `TypedBuilder` construction of `VectorAxpy` with only its
required fields set: both strides default to 1 (`axpy.rs` lines 30-34). -/
def VectorAxpy.build (alpha : S) (n : Nat) (x_vector y_vector : VectorBuffer) :
    VectorAxpy S :=
  { alpha := alpha, n := n, x_vector := x_vector, y_vector := y_vector,
    x_stride := 1, y_stride := 1 }

/-- `assert_dimensions` for axpy (`axpy.rs` lines 41-50): each buffer
length must exceed `n * stride`; sequential `assert!` calls are rendered
as nested conditionals producing the panic of the first failing one. -/
def VectorAxpy.assert_dimensions (params : VectorAxpy S) : Except RustPanic Unit :=
  if params.x_vector.buffer.len > params.n * params.x_stride then
    if params.y_vector.buffer.len > params.n * params.y_stride then .ok ()
    else .error ⟨"y buffer is too short for n and y_stride"⟩
  else .error ⟨"x buffer is too short for n and x_stride"⟩

/-- The `f32` dispatch of axpy (`axpy.rs` lines 52-71). -/
def VectorAxpy.runF32 (self : VectorAxpy F32) : Except RustPanic (AxpyCall F32) :=
  match self.assert_dimensions with
  | .error e => .error e
  | .ok () =>
    .ok { routine := "CLBlastSaxpy", n := self.n, alpha := self.alpha,
          x_offset := self.x_vector.offset, x_stride := self.x_stride,
          y_offset := self.y_vector.offset, y_stride := self.y_stride }

/-- The argument record of a two-vector call without scalar
(`CLBlastScopy`, `copy.rs` lines 53-63; `CLBlastSswap`,
`swap.rs` lines 52-61). -/
structure PairVecCall where
  routine : String
  n : Nat
  x_offset : Nat
  x_stride : Nat
  y_offset : Nat
  y_stride : Nat
  deriving DecidableEq

/-- `struct VectorCopy<'a, T>` (`copy.rs` lines 13-32). -/
structure VectorCopy where
  n : Nat
  x_vector : VectorBuffer
  y_vector : VectorBuffer
  x_stride : Nat
  y_stride : Nat

/-- `assert_dimensions` for copy (`copy.rs` lines 38-47). -/
def VectorCopy.assert_dimensions (params : VectorCopy) : Except RustPanic Unit :=
  if params.x_vector.buffer.len > params.n * params.x_stride then
    if params.y_vector.buffer.len > params.n * params.y_stride then .ok ()
    else .error ⟨"y buffer is too short for n and y_stride"⟩
  else .error ⟨"x buffer is too short for n and x_stride"⟩

/-- The `f32` dispatch of copy (`copy.rs` lines 49-67). -/
def VectorCopy.runF32 (self : VectorCopy) : Except RustPanic PairVecCall :=
  match self.assert_dimensions with
  | .error e => .error e
  | .ok () =>
    .ok { routine := "CLBlastScopy", n := self.n,
          x_offset := self.x_vector.offset, x_stride := self.x_stride,
          y_offset := self.y_vector.offset, y_stride := self.y_stride }

/-- `struct VectorSwap<'a, T>` (`swap.rs` lines 12-32). -/
structure VectorSwap where
  n : Nat
  x_vector : VectorBuffer
  y_vector : VectorBuffer
  x_stride : Nat
  y_stride : Nat

/-- `assert_dimensions` for swap (`swap.rs` lines 37-46). -/
def VectorSwap.assert_dimensions (params : VectorSwap) : Except RustPanic Unit :=
  if params.x_vector.buffer.len > params.n * params.x_stride then
    if params.y_vector.buffer.len > params.n * params.y_stride then .ok ()
    else .error ⟨"y buffer is too short for n and y_stride"⟩
  else .error ⟨"x buffer is too short for n and x_stride"⟩

/-- The `f32` dispatch of swap (`swap.rs` lines 48-66). -/
def VectorSwap.runF32 (self : VectorSwap) : Except RustPanic PairVecCall :=
  match self.assert_dimensions with
  | .error e => .error e
  | .ok () =>
    .ok { routine := "CLBlastSswap", n := self.n,
          x_offset := self.x_vector.offset, x_stride := self.x_stride,
          y_offset := self.y_vector.offset, y_stride := self.y_stride }

/-- The argument record of a `CLBlastSscal` call
(`scal.rs` lines 47-56). -/
structure ScalCall (S : Type) where
  routine : String
  n : Nat
  alpha : S
  x_offset : Nat
  x_stride : Nat
  deriving DecidableEq

/-- `struct VectorScale<'a, T>` (`scal.rs` lines 13-31). -/
structure VectorScale (S : Type) where
  n : Nat
  alpha : S
  x_vector : VectorBuffer
  x_stride : Nat

/-- `assert_dimensions` for scale (`scal.rs` lines 36-41). -/
def VectorScale.assert_dimensions (params : VectorScale S) : Except RustPanic Unit :=
  if params.x_vector.buffer.len > params.n * params.x_stride then .ok ()
  else .error ⟨"x buffer is too short for n and x_stride"⟩

/-- The `f32` dispatch of scale (`scal.rs` lines 43-60). -/
def VectorScale.runF32 (self : VectorScale F32) : Except RustPanic (ScalCall F32) :=
  match self.assert_dimensions with
  | .error e => .error e
  | .ok () =>
    .ok { routine := "CLBlastSscal", n := self.n, alpha := self.alpha,
          x_offset := self.x_vector.offset, x_stride := self.x_stride }

/-- The argument record of a `CLBlastSdot` call (`dot.rs` lines 56-68):
the result buffer's offset, then the x and y offsets and strides. -/
structure DotCall where
  routine : String
  n : Nat
  dot_offset : Nat
  x_offset : Nat
  x_stride : Nat
  y_offset : Nat
  y_stride : Nat
  deriving DecidableEq

/-- `struct VectorDot<'a, T>` (`dot.rs` lines 13-36). -/
structure VectorDot where
  n : Nat
  dot_buffer : VectorBuffer
  x_vector : VectorBuffer
  y_vector : VectorBuffer
  x_stride : Nat
  y_stride : Nat

/-- `assert_dimensions` for dot (`dot.rs` lines 41-50): only the x and y
vectors are checked; the single-element result buffer is not. -/
def VectorDot.assert_dimensions (params : VectorDot) : Except RustPanic Unit :=
  if params.x_vector.buffer.len > params.n * params.x_stride then
    if params.y_vector.buffer.len > params.n * params.y_stride then .ok ()
    else .error ⟨"y buffer is too short for n and y_stride"⟩
  else .error ⟨"x buffer is too short for n and x_stride"⟩

/-- The `f32` dispatch of dot (`dot.rs` lines 52-73). -/
def VectorDot.runF32 (self : VectorDot) : Except RustPanic DotCall :=
  match self.assert_dimensions with
  | .error e => .error e
  | .ok () =>
    .ok { routine := "CLBlastSdot", n := self.n,
          dot_offset := self.dot_buffer.offset,
          x_offset := self.x_vector.offset, x_stride := self.x_stride,
          y_offset := self.y_vector.offset, y_stride := self.y_stride }

/-- `struct VectorDotConjucate<'a, T>` (`dotc.rs` lines 14-36). -/
structure VectorDotConjucate where
  n : Nat
  dot_buffer : VectorBuffer
  x_vector : VectorBuffer
  y_vector : VectorBuffer
  x_stride : Nat
  y_stride : Nat

/-- `assert_dimensions` for the conjugated dot (`dotc.rs` lines 41-50). -/
def VectorDotConjucate.assert_dimensions (params : VectorDotConjucate) :
    Except RustPanic Unit :=
  if params.x_vector.buffer.len > params.n * params.x_stride then
    if params.y_vector.buffer.len > params.n * params.y_stride then .ok ()
    else .error ⟨"y buffer is too short for n and y_stride"⟩
  else .error ⟨"x buffer is too short for n and x_stride"⟩

/-- The `Complex32` dispatch of the conjugated dot (`dotc.rs`,
`CLBlastCdotc`); the conjugate variant is complex-only. -/
def VectorDotConjucate.runC32 (self : VectorDotConjucate) : Except RustPanic DotCall :=
  match self.assert_dimensions with
  | .error e => .error e
  | .ok () =>
    .ok { routine := "CLBlastCdotc", n := self.n,
          dot_offset := self.dot_buffer.offset,
          x_offset := self.x_vector.offset, x_stride := self.x_stride,
          y_offset := self.y_vector.offset, y_stride := self.y_stride }

/-- The argument record of a single-input reduction call (`CLBlastSsum`,
`CLBlastSasum`, `CLBlastiSmax`, `CLBlastiSmin`, `CLBlastiSamax`,
`CLBlastiSamin`): after `n` and the output buffer's offset, these sources
pass `x_stride` and then the x vector's offset, in that order
(e.g. `sum.rs` lines 47-56). -/
structure SingleVecCall where
  routine : String
  n : Nat
  out_offset : Nat
  x_stride : Nat
  x_offset : Nat
  deriving DecidableEq

/-- `struct VectorSum<'a, T>` (`sum.rs` lines 15-29): the output
`sum_vector` and the input `x_vector`. -/
structure VectorSum where
  n : Nat
  sum_vector : VectorBuffer
  x_vector : VectorBuffer
  x_stride : Nat

/-- `assert_dimensions` for sum (`sum.rs` lines 36-41): the source tests
`sum_vector.buffer.len() > n * x_stride` — the length of the output
buffer — while its message speaks of the x buffer. -/
def VectorSum.assert_dimensions (params : VectorSum) : Except RustPanic Unit :=
  if params.sum_vector.buffer.len > params.n * params.x_stride then .ok ()
  else .error ⟨"x buffer is too short for n and x_stride"⟩

/-- The `f32` dispatch of sum (`sum.rs` lines 43-60). -/
def VectorSum.runF32 (self : VectorSum) : Except RustPanic SingleVecCall :=
  match self.assert_dimensions with
  | .error e => .error e
  | .ok () =>
    .ok { routine := "CLBlastSsum", n := self.n,
          out_offset := self.sum_vector.offset,
          x_stride := self.x_stride, x_offset := self.x_vector.offset }

/-- `struct VectorAbsoluteSum<'a, T>` (`asum.rs` lines 15-29). -/
structure VectorAbsoluteSum where
  n : Nat
  asum_vector : VectorBuffer
  x_vector : VectorBuffer
  x_stride : Nat

/-- `assert_dimensions` for the absolute sum (`asum.rs` lines 36-41):
tests the output `asum_vector`'s length. -/
def VectorAbsoluteSum.assert_dimensions (params : VectorAbsoluteSum) :
    Except RustPanic Unit :=
  if params.asum_vector.buffer.len > params.n * params.x_stride then .ok ()
  else .error ⟨"x buffer is too short for n and x_stride"⟩

/-- The `f32` dispatch of the absolute sum (`asum.rs` lines 43-60). -/
def VectorAbsoluteSum.runF32 (self : VectorAbsoluteSum) : Except RustPanic SingleVecCall :=
  match self.assert_dimensions with
  | .error e => .error e
  | .ok () =>
    .ok { routine := "CLBlastSasum", n := self.n,
          out_offset := self.asum_vector.offset,
          x_stride := self.x_stride, x_offset := self.x_vector.offset }

/-- `struct VectorMaxIndex<'a, T>` (`max.rs` lines 15-29). -/
structure VectorMaxIndex where
  n : Nat
  imax_vector : VectorBuffer
  x_vector : VectorBuffer
  x_stride : Nat

/-- `assert_dimensions` for the maximum index (`max.rs` lines 36-41):
tests the output `imax_vector`'s length. -/
def VectorMaxIndex.assert_dimensions (params : VectorMaxIndex) : Except RustPanic Unit :=
  if params.imax_vector.buffer.len > params.n * params.x_stride then .ok ()
  else .error ⟨"x buffer is too short for n and x_stride"⟩

/-- The `f32` dispatch of the maximum index (`max.rs` lines 43-60). -/
def VectorMaxIndex.runF32 (self : VectorMaxIndex) : Except RustPanic SingleVecCall :=
  match self.assert_dimensions with
  | .error e => .error e
  | .ok () =>
    .ok { routine := "CLBlastiSmax", n := self.n,
          out_offset := self.imax_vector.offset,
          x_stride := self.x_stride, x_offset := self.x_vector.offset }

/-- `struct VectorMinIndex<'a, T>` (`min.rs` lines 15-29). -/
structure VectorMinIndex where
  n : Nat
  imin_vector : VectorBuffer
  x_vector : VectorBuffer
  x_stride : Nat

/-- `assert_dimensions` for the minimum index (`min.rs` lines 36-41):
tests the output `imin_vector`'s length. -/
def VectorMinIndex.assert_dimensions (params : VectorMinIndex) : Except RustPanic Unit :=
  if params.imin_vector.buffer.len > params.n * params.x_stride then .ok ()
  else .error ⟨"x buffer is too short for n and x_stride"⟩

/-- The `f32` dispatch of the minimum index (`min.rs` lines 43-60). -/
def VectorMinIndex.runF32 (self : VectorMinIndex) : Except RustPanic SingleVecCall :=
  match self.assert_dimensions with
  | .error e => .error e
  | .ok () =>
    .ok { routine := "CLBlastiSmin", n := self.n,
          out_offset := self.imin_vector.offset,
          x_stride := self.x_stride, x_offset := self.x_vector.offset }

/-- `struct VectorAbsoluteMaxIndex<'a, T>` (`amax.rs` lines 15-29). -/
structure VectorAbsoluteMaxIndex where
  n : Nat
  imax_vector : VectorBuffer
  x_vector : VectorBuffer
  x_stride : Nat

/-- `assert_dimensions` for the absolute maximum index
(`amax.rs` lines 36-41): tests the output `imax_vector`'s length. -/
def VectorAbsoluteMaxIndex.assert_dimensions (params : VectorAbsoluteMaxIndex) :
    Except RustPanic Unit :=
  if params.imax_vector.buffer.len > params.n * params.x_stride then .ok ()
  else .error ⟨"x buffer is too short for n and x_stride"⟩

/-- The `f32` dispatch of the absolute maximum index
(`amax.rs` lines 43-60). -/
def VectorAbsoluteMaxIndex.runF32 (self : VectorAbsoluteMaxIndex) :
    Except RustPanic SingleVecCall :=
  match self.assert_dimensions with
  | .error e => .error e
  | .ok () =>
    .ok { routine := "CLBlastiSamax", n := self.n,
          out_offset := self.imax_vector.offset,
          x_stride := self.x_stride, x_offset := self.x_vector.offset }

/-- `struct VectorAbsoluteMinIndex<'a, T>` (`amin.rs` lines 15-29). -/
structure VectorAbsoluteMinIndex where
  n : Nat
  imin_vector : VectorBuffer
  x_vector : VectorBuffer
  x_stride : Nat

/-- `assert_dimensions` for the absolute minimum index
(`amin.rs` lines 36-41): tests the output `imin_vector`'s length. -/
def VectorAbsoluteMinIndex.assert_dimensions (params : VectorAbsoluteMinIndex) :
    Except RustPanic Unit :=
  if params.imin_vector.buffer.len > params.n * params.x_stride then .ok ()
  else .error ⟨"x buffer is too short for n and x_stride"⟩

/-- The `f32` dispatch of the absolute minimum index
(`amin.rs` lines 43-60). -/
def VectorAbsoluteMinIndex.runF32 (self : VectorAbsoluteMinIndex) :
    Except RustPanic SingleVecCall :=
  match self.assert_dimensions with
  | .error e => .error e
  | .ok () =>
    .ok { routine := "CLBlastiSamin", n := self.n,
          out_offset := self.imin_vector.offset,
          x_stride := self.x_stride, x_offset := self.x_vector.offset }

/-! ### Generalized matrix multiply (level 3) -/

/-- `struct Gemm<'a, T, L>` (`gemm.rs` lines 38-63); the queue handle is
opaque and dropped, `S` is the scalar type. -/
structure Gemm (S : Type) where
  a : MatrixBuffer
  b : MatrixBuffer
  c : MatrixBuffer
  alpha : S
  beta : S
  transpose_a : MatrixTranspose
  transpose_b : MatrixTranspose

/-- The `TypedBuilder` construction of `Gemm` with only its required
fields set (`gemm.rs` lines 52-62): alpha defaults to the multiplicative
identity, beta to the additive identity, both transpose flags to `No`.
(`gemm.rs` names the trait constants `ONE`/`ZERO`; the trait impls
checked in under `lib.rs` name them `one`/`zero` with the same values.) -/
def Gemm.build [NeutralAdd S] [NeutralMul S] (a b c : MatrixBuffer) : Gemm S :=
  { a := a, b := b, c := c, alpha := NeutralMul.one, beta := NeutralAdd.zero,
    transpose_a := .No, transpose_b := .No }

/-- `assert_dimensions` for gemm (`gemm.rs` lines 65-81): three
`assert_eq!` checks on the stored matrix dimensions, returning
`(k, n, m) = (a.columns, b.columns, c.columns)`. -/
def Gemm.assert_dimensions (params : Gemm S) : Except RustPanic (Nat × Nat × Nat) :=
  if params.a.columns = params.b.rows then
    if params.b.columns = params.c.columns then
      if params.c.rows = params.a.rows then
        .ok (params.a.columns, params.b.columns, params.c.columns)
      else .error ⟨"c.columns /= a.rows (m)"⟩
    else .error ⟨"b.columns /= c.columns (n)"⟩
  else .error ⟨"a.columns /= b.rows (k)"⟩

/-- The argument record of a gemm native call (`CLBlastSgemm`,
`CLBlastDgemm`, `CLBlastCgemm`, `CLBlastZgemm`), with the scalar wire
type `W`; opaque buffer pointers, queue and event are dropped. -/
structure GemmCall (W : Type) where
  routine : String
  layout : Nat
  a_transpose : Nat
  b_transpose : Nat
  m : Nat
  n : Nat
  k : Nat
  alpha : W
  a_offset : Nat
  a_ld : Nat
  b_offset : Nat
  b_ld : Nat
  beta : W
  c_offset : Nat
  c_ld : Nat
  deriving DecidableEq

/-- The `f32` dispatch of gemm (`gemm.rs` lines 86-117,
`CLBlastSgemm`): real scalars are passed unchanged. -/
def Gemm.runF32 (self : Gemm F32) : Except RustPanic (GemmCall F32) :=
  match self.assert_dimensions with
  | .error e => .error e
  | .ok (k, n, m) =>
    .ok { routine := "CLBlastSgemm", layout := self.a.layout.to_c,
          a_transpose := self.transpose_a.to_c, b_transpose := self.transpose_b.to_c,
          m := m, n := n, k := k, alpha := self.alpha,
          a_offset := self.a.offset, a_ld := k,
          b_offset := self.b.offset, b_ld := n,
          beta := self.beta, c_offset := self.c.offset, c_ld := n }

/-- The `f64` dispatch of gemm (`gemm.rs` lines 119-150,
`CLBlastDgemm`). -/
def Gemm.runF64 (self : Gemm F64) : Except RustPanic (GemmCall F64) :=
  match self.assert_dimensions with
  | .error e => .error e
  | .ok (k, n, m) =>
    .ok { routine := "CLBlastDgemm", layout := self.a.layout.to_c,
          a_transpose := self.transpose_a.to_c, b_transpose := self.transpose_b.to_c,
          m := m, n := n, k := k, alpha := self.alpha,
          a_offset := self.a.offset, a_ld := k,
          b_offset := self.b.offset, b_ld := n,
          beta := self.beta, c_offset := self.c.offset, c_ld := n }

/-- The `Complex32` dispatch of gemm (`gemm.rs` lines 152-188,
`CLBlastCgemm`): the scalars cross the boundary through the complex wire
conversion.  (The source also builds the same `cl_float2` value twice in
a shadowed, unused local before the call.) -/
def Gemm.runC32 (self : Gemm Complex32) : Except RustPanic (GemmCall cl_float2) :=
  match self.assert_dimensions with
  | .error e => .error e
  | .ok (k, n, m) =>
    .ok { routine := "CLBlastCgemm", layout := self.a.layout.to_c,
          a_transpose := self.transpose_a.to_c, b_transpose := self.transpose_b.to_c,
          m := m, n := n, k := k, alpha := self.alpha.to_c,
          a_offset := self.a.offset, a_ld := k,
          b_offset := self.b.offset, b_ld := n,
          beta := self.beta.to_c, c_offset := self.c.offset, c_ld := n }

/-- The `Complex64` dispatch of gemm (`gemm.rs` lines 190-221,
`CLBlastZgemm`). -/
def Gemm.runC64 (self : Gemm Complex64) : Except RustPanic (GemmCall cl_double2) :=
  match self.assert_dimensions with
  | .error e => .error e
  | .ok (k, n, m) =>
    .ok { routine := "CLBlastZgemm", layout := self.a.layout.to_c,
          a_transpose := self.transpose_a.to_c, b_transpose := self.transpose_b.to_c,
          m := m, n := n, k := k, alpha := self.alpha.to_c,
          a_offset := self.a.offset, a_ld := k,
          b_offset := self.b.offset, b_ld := n,
          beta := self.beta.to_c, c_offset := self.c.offset, c_ld := n }

/-- Replaces the stored layout tag of a matrix view. -/
def MatrixBuffer.withLayout (m : MatrixBuffer) (L : MatrixLayoutKind) : MatrixBuffer :=
  { m with layout := L }

/-- Replaces the layout tag of all three operands of a gemm descriptor:
the value-level rendering of instantiating the type parameter `L` with a
different layout. -/
def Gemm.withLayout (g : Gemm S) (L : MatrixLayoutKind) : Gemm S :=
  { g with a := g.a.withLayout L, b := g.b.withLayout L, c := g.c.withLayout L }

/-- `struct MatrixMultiplication<'a, T, L>` (`lib.rs` lines 132-158), the
`derive_builder` twin of `Gemm`; only the `f32` impl exists in `lib.rs`. -/
structure MatrixMultiplication where
  a : MatrixBuffer
  b : MatrixBuffer
  c : MatrixBuffer
  alpha : F32
  beta : F32
  transpose_a : MatrixTranspose
  transpose_b : MatrixTranspose

/-- The builder construction of `MatrixMultiplication` with only its
required fields set (`lib.rs` lines 147-157): defaults
`alpha = NeutralMul::one`, `beta = NeutralAdd::zero`, both transpose
flags `No`. -/
def MatrixMultiplication.build (a b c : MatrixBuffer) : MatrixMultiplication :=
  { a := a, b := b, c := c, alpha := NeutralMul.one, beta := NeutralAdd.zero,
    transpose_a := .No, transpose_b := .No }

/-- `MatrixMultiplicationBuilder::run` for `f32` (`lib.rs` lines
164-208): the three inline `assert_eq!` checks, then `CLBlastSgemm` with
`m = c.columns`, `n = b.columns`, `k = a.columns` and leading dimensions
`k`, `n`, `n`.  The layout argument stands for the `L` type parameter
(`<L as MatrixLayout>::to_c()`). -/
def MatrixMultiplication.run (L : MatrixLayoutKind) (self : MatrixMultiplication) :
    Except RustPanic (GemmCall F32) :=
  if self.a.columns = self.b.rows then
    if self.b.columns = self.c.columns then
      if self.c.rows = self.a.rows then
        .ok { routine := "CLBlastSgemm", layout := L.to_c,
              a_transpose := self.transpose_a.to_c, b_transpose := self.transpose_b.to_c,
              m := self.c.columns, n := self.b.columns, k := self.a.columns,
              alpha := self.alpha,
              a_offset := self.a.offset, a_ld := self.a.columns,
              b_offset := self.b.offset, b_ld := self.b.columns,
              beta := self.beta, c_offset := self.c.offset, c_ld := self.b.columns }
      else .error ⟨"c.columns /= a.rows (m)"⟩
    else .error ⟨"b.columns /= c.columns (n)"⟩
  else .error ⟨"a.columns /= b.rows (k)"⟩

/-! ### Spec-side predicate

Used to compare the implemented vector dimension check against the
spec's words; translated from the spec, not from the source. -/

/-- Spec §4.3 verbatim for the vector family: "verify every referenced
buffer is large enough: `buffer.length > offset + n * stride`". -/
def specVectorFits (v : VectorBuffer) (n stride : Nat) : Prop :=
  v.buffer.len > v.offset + n * stride

/-! ### Canonical status code of each variant

Verification helpers (not part of the source): the status code whose arm
of the corresponding `from_c` produces each variant, used to state that
every variant is reachable. -/

/-- The status code whose `OclError::from_c` arm yields the variant. -/
def OclError.toCode : OclError → Int
  | .OpenCLCompilerNotAvailable => CLBlastStatusCode__CLBlastOpenCLCompilerNotAvailable
  | .TempBufferAllocFailure => CLBlastStatusCode__CLBlastTempBufferAllocFailure
  | .OpenCLOutOfResources => CLBlastStatusCode__CLBlastOpenCLOutOfResources
  | .OpenCLOutOfHostMemory => CLBlastStatusCode__CLBlastOpenCLOutOfHostMemory
  | .OpenCLBuildProgramFailure => CLBlastStatusCode__CLBlastOpenCLBuildProgramFailure
  | .InvalidValue => CLBlastStatusCode__CLBlastInvalidValue
  | .InvalidCommandQueue => CLBlastStatusCode__CLBlastInvalidCommandQueue
  | .InvalidMemObject => CLBlastStatusCode__CLBlastInvalidMemObject
  | .InvalidBinary => CLBlastStatusCode__CLBlastInvalidBinary
  | .InvalidBuildOptions => CLBlastStatusCode__CLBlastInvalidBuildOptions
  | .InvalidProgram => CLBlastStatusCode__CLBlastInvalidProgram
  | .InvalidProgramExecutable => CLBlastStatusCode__CLBlastInvalidProgramExecutable
  | .InvalidKernelName => CLBlastStatusCode__CLBlastInvalidKernelName
  | .InvalidKernelDefinition => CLBlastStatusCode__CLBlastInvalidKernelDefinition
  | .InvalidKernel => CLBlastStatusCode__CLBlastInvalidKernel
  | .InvalidArgIndex => CLBlastStatusCode__CLBlastInvalidArgIndex
  | .InvalidArgValue => CLBlastStatusCode__CLBlastInvalidArgValue
  | .InvalidArgSize => CLBlastStatusCode__CLBlastInvalidArgSize
  | .InvalidKernelArgs => CLBlastStatusCode__CLBlastInvalidKernelArgs
  | .InvalidLocalNumDimensions => CLBlastStatusCode__CLBlastInvalidLocalNumDimensions
  | .InvalidLocalThreadsTotal => CLBlastStatusCode__CLBlastInvalidLocalThreadsTotal
  | .InvalidLocalThreadsDim => CLBlastStatusCode__CLBlastInvalidLocalThreadsDim
  | .InvalidGlobalOffset => CLBlastStatusCode__CLBlastInvalidGlobalOffset
  | .InvalidEventWaitList => CLBlastStatusCode__CLBlastInvalidEventWaitList
  | .InvalidEvent => CLBlastStatusCode__CLBlastInvalidEvent
  | .InvalidOperation => CLBlastStatusCode__CLBlastInvalidOperation
  | .InvalidBufferSize => CLBlastStatusCode__CLBlastInvalidBufferSize
  | .InvalidGlobalWorkSize => CLBlastStatusCode__CLBlastInvalidGlobalWorkSize

/-- The status code whose `BlasError::from_c` arm yields the variant. -/
def BlasError.toCode : BlasError → Int
  | .NotImplemented => CLBlastStatusCode__CLBlastNotImplemented
  | .InvalidMatrixA => CLBlastStatusCode__CLBlastInvalidMatrixA
  | .InvalidMatrixB => CLBlastStatusCode__CLBlastInvalidMatrixB
  | .InvalidMatrixC => CLBlastStatusCode__CLBlastInvalidMatrixC
  | .InvalidVectorX => CLBlastStatusCode__CLBlastInvalidVectorX
  | .InvalidVectorY => CLBlastStatusCode__CLBlastInvalidVectorY
  | .InvalidDimension => CLBlastStatusCode__CLBlastInvalidDimension
  | .InvalidLeadDimA => CLBlastStatusCode__CLBlastInvalidLeadDimA
  | .InvalidLeadDimB => CLBlastStatusCode__CLBlastInvalidLeadDimB
  | .InvalidLeadDimC => CLBlastStatusCode__CLBlastInvalidLeadDimC
  | .InvalidIncrementX => CLBlastStatusCode__CLBlastInvalidIncrementX
  | .InvalidIncrementY => CLBlastStatusCode__CLBlastInvalidIncrementY
  | .InsufficientMemoryA => CLBlastStatusCode__CLBlastInsufficientMemoryA
  | .InsufficientMemoryB => CLBlastStatusCode__CLBlastInsufficientMemoryB
  | .InsufficientMemoryC => CLBlastStatusCode__CLBlastInsufficientMemoryC
  | .InsufficientMemoryX => CLBlastStatusCode__CLBlastInsufficientMemoryX
  | .InsufficientMemoryY => CLBlastStatusCode__CLBlastInsufficientMemoryY

/-- The status code whose `BlastError::from_c` arm yields the variant. -/
def BlastError.toCode : BlastError → Int
  | .InsufficientMemoryTemp => CLBlastStatusCode__CLBlastInsufficientMemoryTemp
  | .InvalidBatchCount => CLBlastStatusCode__CLBlastInvalidBatchCount
  | .InvalidOverrideKernel => CLBlastStatusCode__CLBlastInvalidOverrideKernel
  | .MissingOverrideParameter => CLBlastStatusCode__CLBlastMissingOverrideParameter
  | .InvalidLocalMemUsage => CLBlastStatusCode__CLBlastInvalidLocalMemUsage
  | .NoHalfPrecision => CLBlastStatusCode__CLBlastNoHalfPrecision
  | .NoDoublePrecision => CLBlastStatusCode__CLBlastNoDoublePrecision
  | .InvalidVectorScalar => CLBlastStatusCode__CLBlastInvalidVectorScalar
  | .InsufficientMemoryScalar => CLBlastStatusCode__CLBlastInsufficientMemoryScalar
  | .DatabaseError => CLBlastStatusCode__CLBlastDatabaseError
  | .UnknownError => CLBlastStatusCode__CLBlastUnknownError
  | .UnexpectedError => CLBlastStatusCode__CLBlastUnexpectedError

/-! ## Theorems -/

/-- Each tier recognizes exactly its own arm's codes: reaching a variant
through its canonical code. -/
theorem ocl_from_c_toCode (e : OclError) : OclError.from_c e.toCode = some e := by
  revert e; decide

/-- Tier-2 analogue of `ocl_from_c_toCode`. -/
theorem blas_from_c_toCode (e : BlasError) : BlasError.from_c e.toCode = some e := by
  revert e; decide

/-- Tier-3 analogue of `ocl_from_c_toCode`. -/
theorem blast_from_c_toCode (e : BlastError) : BlastError.from_c e.toCode = some e := by
  revert e; decide

/-- C1: `Error::from_c_either` implements the fixed three-tier lookup:
the success sentinel maps to `Ok(())`; otherwise tier 1 (OpenCL runtime
errors) is consulted first, then tier 2 (BLAS argument errors), then
tier 3 (library-internal errors); when no tier recognizes the code the
result is an `Unknown` error carrying the raw integer unchanged.  The
function is total: for every input it returns either success or an
error (it never panics). -/
theorem c1_from_c_either_three_tier_lookup :
    Error.from_c_either CLBlastStatusCode__CLBlastSuccess = .ok () ∧
    (∀ c e, OclError.from_c c = some e →
      Error.from_c_either c = .error (.Ocl e)) ∧
    (∀ c e, c ≠ CLBlastStatusCode__CLBlastSuccess → OclError.from_c c = none →
      BlasError.from_c c = some e → Error.from_c_either c = .error (.Blas e)) ∧
    (∀ c e, c ≠ CLBlastStatusCode__CLBlastSuccess → OclError.from_c c = none →
      BlasError.from_c c = none → BlastError.from_c c = some e →
      Error.from_c_either c = .error (.Blast e)) ∧
    (∀ c, c ≠ CLBlastStatusCode__CLBlastSuccess → OclError.from_c c = none →
      BlasError.from_c c = none → BlastError.from_c c = none →
      Error.from_c_either c = .error (.Unknown c)) ∧
    (∀ c, Error.from_c_either c = .ok () ∨ ∃ err, Error.from_c_either c = .error err) := by
  refine ⟨rfl, ?_, ?_, ?_, ?_, ?_⟩
  · intro c e h
    have hc : c ≠ CLBlastStatusCode__CLBlastSuccess := by
      intro hcs
      rw [hcs] at h
      simp [OclError.from_c] at h
    simp [Error.from_c_either, Error.from_c, hc, h, Option.orElse]
  · intro c e hc h1 h2
    simp [Error.from_c_either, Error.from_c, hc, h1, h2, Option.orElse]
  · intro c e hc h1 h2 h3
    simp [Error.from_c_either, Error.from_c, hc, h1, h2, h3, Option.orElse]
  · intro c hc h1 h2 h3
    simp [Error.from_c_either, Error.from_c, hc, h1, h2, h3, Option.orElse]
  · intro c
    cases h : Error.from_c_either c with
    | ok u => cases u; exact Or.inl rfl
    | error err => exact Or.inr ⟨err, rfl⟩

/-- Witness for C1: the lookup evaluated at one code of each tier and at
an unmapped code. -/
theorem c1_from_c_either_three_tier_lookup_witness :
    Error.from_c_either (-3) = .error (.Ocl .OpenCLCompilerNotAvailable) ∧
    Error.from_c_either (-1024) = .error (.Blas .NotImplemented) ∧
    Error.from_c_either (-2050) = .error (.Blast .InsufficientMemoryTemp) ∧
    Error.from_c_either 12345 = .error (.Unknown 12345) := by
  obtain ⟨-, h2, h3, h4, h5, -⟩ := c1_from_c_either_three_tier_lookup
  exact ⟨h2 (-3) _ (by decide),
         h3 (-1024) _ (by decide) (by decide) (by decide),
         h4 (-2050) _ (by decide) (by decide) (by decide) (by decide),
         h5 12345 (by decide) (by decide) (by decide) (by decide)⟩

/-- Helper: a status code recognized by tier 1 is recognized by neither
tier 2 nor tier 3. -/
theorem ocl_disjoint_from_lower_tiers (c : Int) (h : (OclError.from_c c).isSome) :
    BlasError.from_c c = none ∧ BlastError.from_c c = none := by
  unfold OclError.from_c at h
  by_cases e0 : c = CLBlastStatusCode__CLBlastSuccess
  · rw [if_pos e0] at h
    exact absurd h (by decide)
  rw [if_neg e0] at h
  by_cases e1 : c = CLBlastStatusCode__CLBlastOpenCLCompilerNotAvailable
  · subst e1
    decide
  rw [if_neg e1] at h
  by_cases e2 : c = CLBlastStatusCode__CLBlastTempBufferAllocFailure
  · subst e2
    decide
  rw [if_neg e2] at h
  by_cases e3 : c = CLBlastStatusCode__CLBlastOpenCLOutOfResources
  · subst e3
    decide
  rw [if_neg e3] at h
  by_cases e4 : c = CLBlastStatusCode__CLBlastOpenCLOutOfHostMemory
  · subst e4
    decide
  rw [if_neg e4] at h
  by_cases e5 : c = CLBlastStatusCode__CLBlastOpenCLBuildProgramFailure
  · subst e5
    decide
  rw [if_neg e5] at h
  by_cases e6 : c = CLBlastStatusCode__CLBlastInvalidValue
  · subst e6
    decide
  rw [if_neg e6] at h
  by_cases e7 : c = CLBlastStatusCode__CLBlastInvalidCommandQueue
  · subst e7
    decide
  rw [if_neg e7] at h
  by_cases e8 : c = CLBlastStatusCode__CLBlastInvalidMemObject
  · subst e8
    decide
  rw [if_neg e8] at h
  by_cases e9 : c = CLBlastStatusCode__CLBlastInvalidBinary
  · subst e9
    decide
  rw [if_neg e9] at h
  by_cases e10 : c = CLBlastStatusCode__CLBlastInvalidBuildOptions
  · subst e10
    decide
  rw [if_neg e10] at h
  by_cases e11 : c = CLBlastStatusCode__CLBlastInvalidProgram
  · subst e11
    decide
  rw [if_neg e11] at h
  by_cases e12 : c = CLBlastStatusCode__CLBlastInvalidProgramExecutable
  · subst e12
    decide
  rw [if_neg e12] at h
  by_cases e13 : c = CLBlastStatusCode__CLBlastInvalidKernelName
  · subst e13
    decide
  rw [if_neg e13] at h
  by_cases e14 : c = CLBlastStatusCode__CLBlastInvalidKernelDefinition
  · subst e14
    decide
  rw [if_neg e14] at h
  by_cases e15 : c = CLBlastStatusCode__CLBlastInvalidKernel
  · subst e15
    decide
  rw [if_neg e15] at h
  by_cases e16 : c = CLBlastStatusCode__CLBlastInvalidArgIndex
  · subst e16
    decide
  rw [if_neg e16] at h
  by_cases e17 : c = CLBlastStatusCode__CLBlastInvalidArgValue
  · subst e17
    decide
  rw [if_neg e17] at h
  by_cases e18 : c = CLBlastStatusCode__CLBlastInvalidArgSize
  · subst e18
    decide
  rw [if_neg e18] at h
  by_cases e19 : c = CLBlastStatusCode__CLBlastInvalidKernelArgs
  · subst e19
    decide
  rw [if_neg e19] at h
  by_cases e20 : c = CLBlastStatusCode__CLBlastInvalidLocalNumDimensions
  · subst e20
    decide
  rw [if_neg e20] at h
  by_cases e21 : c = CLBlastStatusCode__CLBlastInvalidLocalThreadsTotal
  · subst e21
    decide
  rw [if_neg e21] at h
  by_cases e22 : c = CLBlastStatusCode__CLBlastInvalidLocalThreadsDim
  · subst e22
    decide
  rw [if_neg e22] at h
  by_cases e23 : c = CLBlastStatusCode__CLBlastInvalidGlobalOffset
  · subst e23
    decide
  rw [if_neg e23] at h
  by_cases e24 : c = CLBlastStatusCode__CLBlastInvalidEventWaitList
  · subst e24
    decide
  rw [if_neg e24] at h
  by_cases e25 : c = CLBlastStatusCode__CLBlastInvalidEvent
  · subst e25
    decide
  rw [if_neg e25] at h
  by_cases e26 : c = CLBlastStatusCode__CLBlastInvalidOperation
  · subst e26
    decide
  rw [if_neg e26] at h
  by_cases e27 : c = CLBlastStatusCode__CLBlastInvalidBufferSize
  · subst e27
    decide
  rw [if_neg e27] at h
  by_cases e28 : c = CLBlastStatusCode__CLBlastInvalidGlobalWorkSize
  · subst e28
    decide
  rw [if_neg e28] at h
  exact absurd h (by decide)

/-- Helper: a status code recognized by tier 2 is not recognized by
tier 3. -/
theorem blas_disjoint_from_blast (c : Int) (h : (BlasError.from_c c).isSome) :
    BlastError.from_c c = none := by
  unfold BlasError.from_c at h
  by_cases e0 : c = CLBlastStatusCode__CLBlastNotImplemented
  · subst e0
    decide
  rw [if_neg e0] at h
  by_cases e1 : c = CLBlastStatusCode__CLBlastInvalidMatrixA
  · subst e1
    decide
  rw [if_neg e1] at h
  by_cases e2 : c = CLBlastStatusCode__CLBlastInvalidMatrixB
  · subst e2
    decide
  rw [if_neg e2] at h
  by_cases e3 : c = CLBlastStatusCode__CLBlastInvalidMatrixC
  · subst e3
    decide
  rw [if_neg e3] at h
  by_cases e4 : c = CLBlastStatusCode__CLBlastInvalidVectorX
  · subst e4
    decide
  rw [if_neg e4] at h
  by_cases e5 : c = CLBlastStatusCode__CLBlastInvalidVectorY
  · subst e5
    decide
  rw [if_neg e5] at h
  by_cases e6 : c = CLBlastStatusCode__CLBlastInvalidDimension
  · subst e6
    decide
  rw [if_neg e6] at h
  by_cases e7 : c = CLBlastStatusCode__CLBlastInvalidLeadDimA
  · subst e7
    decide
  rw [if_neg e7] at h
  by_cases e8 : c = CLBlastStatusCode__CLBlastInvalidLeadDimB
  · subst e8
    decide
  rw [if_neg e8] at h
  by_cases e9 : c = CLBlastStatusCode__CLBlastInvalidLeadDimC
  · subst e9
    decide
  rw [if_neg e9] at h
  by_cases e10 : c = CLBlastStatusCode__CLBlastInvalidIncrementX
  · subst e10
    decide
  rw [if_neg e10] at h
  by_cases e11 : c = CLBlastStatusCode__CLBlastInvalidIncrementY
  · subst e11
    decide
  rw [if_neg e11] at h
  by_cases e12 : c = CLBlastStatusCode__CLBlastInsufficientMemoryA
  · subst e12
    decide
  rw [if_neg e12] at h
  by_cases e13 : c = CLBlastStatusCode__CLBlastInsufficientMemoryB
  · subst e13
    decide
  rw [if_neg e13] at h
  by_cases e14 : c = CLBlastStatusCode__CLBlastInsufficientMemoryC
  · subst e14
    decide
  rw [if_neg e14] at h
  by_cases e15 : c = CLBlastStatusCode__CLBlastInsufficientMemoryX
  · subst e15
    decide
  rw [if_neg e15] at h
  by_cases e16 : c = CLBlastStatusCode__CLBlastInsufficientMemoryY
  · subst e16
    decide
  rw [if_neg e16] at h
  exact absurd h (by decide)

/-- C4 counterexample: tier 1 (`OclError`) has 28 variants, not the 27
the claim states. -/
theorem c4_counterexample_tier1_has_28_variants :
    Fintype.card OclError = 28 ∧ (28 : Nat) ≠ 27 := by
  constructor <;> decide

/-- C4 (amended): the taxonomy has exactly 28 tier-1 variants, 17 tier-2
variants and 12 tier-3 variants; every variant of each tier is produced
by some status code, and no status code is recognized by two tiers. -/
theorem c4_taxonomy_counts_exhaustive_disjoint :
    Fintype.card OclError = 28 ∧
    Fintype.card BlasError = 17 ∧
    Fintype.card BlastError = 12 ∧
    (∀ e : OclError, ∃ c, OclError.from_c c = some e) ∧
    (∀ e : BlasError, ∃ c, BlasError.from_c c = some e) ∧
    (∀ e : BlastError, ∃ c, BlastError.from_c c = some e) ∧
    (∀ c, (OclError.from_c c).isSome →
      BlasError.from_c c = none ∧ BlastError.from_c c = none) ∧
    (∀ c, (BlasError.from_c c).isSome → BlastError.from_c c = none) := by
  exact ⟨by decide, by decide, by decide,
          fun e => ⟨e.toCode, ocl_from_c_toCode e⟩,
          fun e => ⟨e.toCode, blas_from_c_toCode e⟩,
          fun e => ⟨e.toCode, blast_from_c_toCode e⟩,
          fun c h => ocl_disjoint_from_lower_tiers c h,
          fun c h => blas_disjoint_from_blast c h⟩

/-- Witness for C4 (amended): disjointness applied at the concrete codes
of tier 1 and tier 2. -/
theorem c4_taxonomy_counts_exhaustive_disjoint_witness :
    (BlasError.from_c (-3) = none ∧ BlastError.from_c (-3) = none) ∧
    BlastError.from_c (-1024) = none := by
  obtain ⟨-, -, -, -, -, -, h7, h8⟩ := c4_taxonomy_counts_exhaustive_disjoint
  exact ⟨h7 (-3) (by decide), h8 (-1024) (by decide)⟩

/-- C2 counterexample: the vector dimension check does not include the
view's offset.  An axpy whose x view has offset 3 into a buffer of
length 5 with `n = 4`, `x_stride = 1` violates the claimed check
`buffer.length > offset + n * stride` (5 is not greater than 7), yet the
run passes the implemented check (5 > 4) and reaches the native call. -/
theorem c2_counterexample_offset_not_checked :
    (VectorAxpy.runF32
      { alpha := ⟨0⟩, n := 4, x_vector := { buffer := ⟨5⟩, offset := 3 },
        y_vector := { buffer := ⟨100⟩, offset := 0 }, x_stride := 1,
        y_stride := 1 }).isOk = true ∧
    ¬ specVectorFits { buffer := ⟨5⟩, offset := 3 } 4 1 :=
  ⟨rfl, by unfold specVectorFits; decide⟩

/-- C2 (amended): for every vector operation (axpy, copy, swap, scale,
dot, dot-conjugate) and every vector buffer it references with extent
`n` and a stride, the pre-call dimension check verifies
`buffer.length > n * stride` — the view's offset is not added — and on
violation the run fails with a synchronous assertion-style failure
before the native entry point is invoked. -/
theorem c2_vector_dimension_checks :
    (∀ p : VectorAxpy F32, p.runF32.isOk = true ↔
      (p.x_vector.buffer.len > p.n * p.x_stride ∧
       p.y_vector.buffer.len > p.n * p.y_stride)) ∧
    (∀ p : VectorCopy, p.runF32.isOk = true ↔
      (p.x_vector.buffer.len > p.n * p.x_stride ∧
       p.y_vector.buffer.len > p.n * p.y_stride)) ∧
    (∀ p : VectorSwap, p.runF32.isOk = true ↔
      (p.x_vector.buffer.len > p.n * p.x_stride ∧
       p.y_vector.buffer.len > p.n * p.y_stride)) ∧
    (∀ p : VectorScale F32, p.runF32.isOk = true ↔
      p.x_vector.buffer.len > p.n * p.x_stride) ∧
    (∀ p : VectorDot, p.runF32.isOk = true ↔
      (p.x_vector.buffer.len > p.n * p.x_stride ∧
       p.y_vector.buffer.len > p.n * p.y_stride)) ∧
    (∀ p : VectorDotConjucate, p.runC32.isOk = true ↔
      (p.x_vector.buffer.len > p.n * p.x_stride ∧
       p.y_vector.buffer.len > p.n * p.y_stride)) := by
  refine ⟨?_, ?_, ?_, ?_, ?_, ?_⟩
  · intro p
    unfold VectorAxpy.runF32 VectorAxpy.assert_dimensions
    split_ifs <;> simp_all [Except.isOk, Except.toBool]
  · intro p
    unfold VectorCopy.runF32 VectorCopy.assert_dimensions
    split_ifs <;> simp_all [Except.isOk, Except.toBool]
  · intro p
    unfold VectorSwap.runF32 VectorSwap.assert_dimensions
    split_ifs <;> simp_all [Except.isOk, Except.toBool]
  · intro p
    unfold VectorScale.runF32 VectorScale.assert_dimensions
    split_ifs <;> simp_all [Except.isOk, Except.toBool]
  · intro p
    unfold VectorDot.runF32 VectorDot.assert_dimensions
    split_ifs <;> simp_all [Except.isOk, Except.toBool]
  · intro p
    unfold VectorDotConjucate.runC32 VectorDotConjucate.assert_dimensions
    split_ifs <;> simp_all [Except.isOk, Except.toBool]

/-- Witness for C2 (amended): the axpy check evaluated at a vector pair
that satisfies both length bounds. -/
theorem c2_vector_dimension_checks_witness :
    (VectorAxpy.runF32
      { alpha := ⟨0⟩, n := 2, x_vector := { buffer := ⟨5⟩, offset := 0 },
        y_vector := { buffer := ⟨5⟩, offset := 0 }, x_stride := 1,
        y_stride := 1 }).isOk = true :=
  (c2_vector_dimension_checks.1 _).mpr (by decide)

/-- C3: every Gemm dispatch (all four scalar types, and the `lib.rs`
`MatrixMultiplicationBuilder::run` twin) reaches the native call exactly
when `a.columns = b.rows`, `b.columns = c.columns` and `c.rows = a.rows`
hold on the stored dimensions; when any equality fails the run aborts
with the assertion panic and produces no call.  The check reads the
stored (pre-transpose) dimensions: it is invariant under the transpose
flags. -/
theorem c3_gemm_dimension_check_gates_native_call :
    (∀ p : Gemm F32, p.runF32.isOk = true ↔
      (p.a.columns = p.b.rows ∧ p.b.columns = p.c.columns ∧ p.c.rows = p.a.rows)) ∧
    (∀ p : Gemm F64, p.runF64.isOk = true ↔
      (p.a.columns = p.b.rows ∧ p.b.columns = p.c.columns ∧ p.c.rows = p.a.rows)) ∧
    (∀ p : Gemm Complex32, p.runC32.isOk = true ↔
      (p.a.columns = p.b.rows ∧ p.b.columns = p.c.columns ∧ p.c.rows = p.a.rows)) ∧
    (∀ p : Gemm Complex64, p.runC64.isOk = true ↔
      (p.a.columns = p.b.rows ∧ p.b.columns = p.c.columns ∧ p.c.rows = p.a.rows)) ∧
    (∀ (L : MatrixLayoutKind) (p : MatrixMultiplication), (p.run L).isOk = true ↔
      (p.a.columns = p.b.rows ∧ p.b.columns = p.c.columns ∧ p.c.rows = p.a.rows)) ∧
    (∀ (S : Type) (p : Gemm S) ta tb,
      Gemm.assert_dimensions
        { p with transpose_a := ta, transpose_b := tb } = p.assert_dimensions) := by
  refine ⟨?_, ?_, ?_, ?_, ?_, fun S p ta tb => rfl⟩
  · intro p
    unfold Gemm.runF32 Gemm.assert_dimensions
    split_ifs <;> simp_all [Except.isOk, Except.toBool]
  · intro p
    unfold Gemm.runF64 Gemm.assert_dimensions
    split_ifs <;> simp_all [Except.isOk, Except.toBool]
  · intro p
    unfold Gemm.runC32 Gemm.assert_dimensions
    split_ifs <;> simp_all [Except.isOk, Except.toBool]
  · intro p
    unfold Gemm.runC64 Gemm.assert_dimensions
    split_ifs <;> simp_all [Except.isOk, Except.toBool]
  · intro L p
    unfold MatrixMultiplication.run
    split_ifs <;> simp_all [Except.isOk, Except.toBool]

/-- Witness for C3: the `f32` dispatch at a concrete well-chained triple
(A 2 by 3, B 3 by 4, C 2 by 4). -/
theorem c3_gemm_dimension_check_gates_native_call_witness :
    (Gemm.runF32
      { a := ⟨2, 3, 0, ⟨6⟩, .RowMajor⟩, b := ⟨3, 4, 0, ⟨12⟩, .RowMajor⟩,
        c := ⟨2, 4, 0, ⟨8⟩, .RowMajor⟩, alpha := ⟨0⟩, beta := ⟨0⟩,
        transpose_a := .No, transpose_b := .No }).isOk = true :=
  (c3_gemm_dimension_check_gates_native_call.1 _).mpr (by decide)

/-- C5: the single-input operations' pre-call check reads the wrong
buffer.  Each of the six `assert_dimensions` (sum, absolute-sum,
max-index, min-index, abs-max-index, abs-min-index) tests the length of
the one-element output buffer (`sum_vector`, `asum_vector`,
`imax_vector`, `imin_vector`) against `n * x_stride`, although its own
panic message says "x buffer is too short for n and x_stride".  With
`n = 10`, `x_stride = 1`, an input x buffer of length 1 (too short: the
claim requires the run to fail before the native call) and an output
buffer of length 100, every run reaches the native entry point; with
the buffers' roles reversed the check fires even though x is large
enough.  The last conjunct records the claim's violation condition
`n * stride > x.buffer.length - offset` at the failing input. -/
theorem c5_single_input_check_reads_output_buffer :
    (VectorSum.runF32
      { n := 10, sum_vector := ⟨⟨100⟩, 0⟩, x_vector := ⟨⟨1⟩, 0⟩,
        x_stride := 1 }).isOk = true ∧
    (VectorSum.runF32
      { n := 10, sum_vector := ⟨⟨5⟩, 0⟩, x_vector := ⟨⟨100⟩, 0⟩,
        x_stride := 1 }).isOk = false ∧
    (VectorAbsoluteSum.runF32
      { n := 10, asum_vector := ⟨⟨100⟩, 0⟩, x_vector := ⟨⟨1⟩, 0⟩,
        x_stride := 1 }).isOk = true ∧
    (VectorMaxIndex.runF32
      { n := 10, imax_vector := ⟨⟨100⟩, 0⟩, x_vector := ⟨⟨1⟩, 0⟩,
        x_stride := 1 }).isOk = true ∧
    (VectorMinIndex.runF32
      { n := 10, imin_vector := ⟨⟨100⟩, 0⟩, x_vector := ⟨⟨1⟩, 0⟩,
        x_stride := 1 }).isOk = true ∧
    (VectorAbsoluteMaxIndex.runF32
      { n := 10, imax_vector := ⟨⟨100⟩, 0⟩, x_vector := ⟨⟨1⟩, 0⟩,
        x_stride := 1 }).isOk = true ∧
    (VectorAbsoluteMinIndex.runF32
      { n := 10, imin_vector := ⟨⟨100⟩, 0⟩, x_vector := ⟨⟨1⟩, 0⟩,
        x_stride := 1 }).isOk = true ∧
    (10 : Nat) * 1 > 1 - 0 :=
  ⟨rfl, rfl, rfl, rfl, rfl, rfl, rfl, by decide⟩

/-- C6: the complex wire conversion produces exactly the two-element
struct holding `[re, im]` in that order; field equality of the embedding
is bit-for-bit equality of the source floats, the conversion is a total
function with no error path, and the real-scalar dispatches pass alpha
and beta to the native call unchanged. -/
theorem c6_complex_wire_conversion :
    (∀ re im, Complex32.to_c ⟨re, im⟩ = ⟨(re, im)⟩) ∧
    (∀ re im, Complex64.to_c ⟨re, im⟩ = ⟨(re, im)⟩) ∧
    (∀ (p : Gemm Complex32) call, p.runC32 = .ok call →
      call.alpha = ⟨(p.alpha.re, p.alpha.im)⟩ ∧ call.beta = ⟨(p.beta.re, p.beta.im)⟩) ∧
    (∀ (p : Gemm Complex64) call, p.runC64 = .ok call →
      call.alpha = ⟨(p.alpha.re, p.alpha.im)⟩ ∧ call.beta = ⟨(p.beta.re, p.beta.im)⟩) ∧
    (∀ (p : Gemm F32) call, p.runF32 = .ok call →
      call.alpha = p.alpha ∧ call.beta = p.beta) ∧
    (∀ (p : Gemm F64) call, p.runF64 = .ok call →
      call.alpha = p.alpha ∧ call.beta = p.beta) := by
  refine ⟨fun re im => rfl, fun re im => rfl, ?_, ?_, ?_, ?_⟩
  · intro p call h
    unfold Gemm.runC32 Gemm.assert_dimensions at h
    split_ifs at h <;> (try (injection h with h; subst h)) <;> simp_all [Complex32.to_c]
  · intro p call h
    unfold Gemm.runC64 Gemm.assert_dimensions at h
    split_ifs at h <;> (try (injection h with h; subst h)) <;> simp_all [Complex64.to_c]
  · intro p call h
    unfold Gemm.runF32 Gemm.assert_dimensions at h
    split_ifs at h <;> (try (injection h with h; subst h)) <;> simp_all
  · intro p call h
    unfold Gemm.runF64 Gemm.assert_dimensions at h
    split_ifs at h <;> (try (injection h with h; subst h)) <;> simp_all

/-- Witness for C6: a square complex gemm whose alpha crosses the
boundary as its component pair. -/
theorem c6_complex_wire_conversion_witness :
    Gemm.runC32
      { a := ⟨1, 1, 0, ⟨1⟩, .RowMajor⟩, b := ⟨1, 1, 0, ⟨1⟩, .RowMajor⟩,
        c := ⟨1, 1, 0, ⟨1⟩, .RowMajor⟩, alpha := ⟨⟨7⟩, ⟨9⟩⟩, beta := ⟨⟨0⟩, ⟨0⟩⟩,
        transpose_a := .No, transpose_b := .No } =
      .ok { routine := "CLBlastCgemm", layout := 101, a_transpose := 111,
            b_transpose := 111, m := 1, n := 1, k := 1, alpha := ⟨(⟨7⟩, ⟨9⟩)⟩,
            a_offset := 0, a_ld := 1, b_offset := 0, b_ld := 1,
            beta := ⟨(⟨0⟩, ⟨0⟩)⟩, c_offset := 0, c_ld := 1 } ∧
    ({ routine := "CLBlastCgemm", layout := 101, a_transpose := 111,
       b_transpose := 111, m := 1, n := 1, k := 1, alpha := ⟨(⟨7⟩, ⟨9⟩)⟩,
       a_offset := 0, a_ld := 1, b_offset := 0, b_ld := 1,
       beta := ⟨(⟨0⟩, ⟨0⟩)⟩, c_offset := 0, c_ld := 1 } : GemmCall cl_float2).alpha =
      ⟨(⟨7⟩, ⟨9⟩)⟩ := by
  have h : Gemm.runC32
      { a := ⟨1, 1, 0, ⟨1⟩, .RowMajor⟩, b := ⟨1, 1, 0, ⟨1⟩, .RowMajor⟩,
        c := ⟨1, 1, 0, ⟨1⟩, .RowMajor⟩, alpha := ⟨⟨7⟩, ⟨9⟩⟩, beta := ⟨⟨0⟩, ⟨0⟩⟩,
        transpose_a := .No, transpose_b := .No } =
      .ok { routine := "CLBlastCgemm", layout := 101, a_transpose := 111,
            b_transpose := 111, m := 1, n := 1, k := 1, alpha := ⟨(⟨7⟩, ⟨9⟩)⟩,
            a_offset := 0, a_ld := 1, b_offset := 0, b_ld := 1,
            beta := ⟨(⟨0⟩, ⟨0⟩)⟩, c_offset := 0, c_ld := 1 } := rfl
  exact ⟨h, (c6_complex_wire_conversion.2.2.1 _ _ h).1⟩

/-- C7: every Gemm dispatch whose dimension asserts pass forwards
`m = c.columns`, `n = b.columns` and `k = a.columns` to the native entry
point — `m` is read from C's column count, not from the row count the
checker pinned equal to `a.rows`. -/
theorem c7_gemm_m_n_k_from_columns :
    (∀ (p : Gemm F32) call, p.runF32 = .ok call →
      call.m = p.c.columns ∧ call.n = p.b.columns ∧ call.k = p.a.columns) ∧
    (∀ (p : Gemm F64) call, p.runF64 = .ok call →
      call.m = p.c.columns ∧ call.n = p.b.columns ∧ call.k = p.a.columns) ∧
    (∀ (p : Gemm Complex32) call, p.runC32 = .ok call →
      call.m = p.c.columns ∧ call.n = p.b.columns ∧ call.k = p.a.columns) ∧
    (∀ (p : Gemm Complex64) call, p.runC64 = .ok call →
      call.m = p.c.columns ∧ call.n = p.b.columns ∧ call.k = p.a.columns) ∧
    (∀ (L : MatrixLayoutKind) (p : MatrixMultiplication) call, p.run L = .ok call →
      call.m = p.c.columns ∧ call.n = p.b.columns ∧ call.k = p.a.columns) := by
  refine ⟨?_, ?_, ?_, ?_, ?_⟩
  · intro p call h
    unfold Gemm.runF32 Gemm.assert_dimensions at h
    split_ifs at h <;> (try (injection h with h; subst h)) <;> simp_all
  · intro p call h
    unfold Gemm.runF64 Gemm.assert_dimensions at h
    split_ifs at h <;> (try (injection h with h; subst h)) <;> simp_all
  · intro p call h
    unfold Gemm.runC32 Gemm.assert_dimensions at h
    split_ifs at h <;> (try (injection h with h; subst h)) <;> simp_all
  · intro p call h
    unfold Gemm.runC64 Gemm.assert_dimensions at h
    split_ifs at h <;> (try (injection h with h; subst h)) <;> simp_all
  · intro L p call h
    unfold MatrixMultiplication.run at h
    split_ifs at h <;> (try (injection h with h; subst h)) <;> simp_all

/-- Witness for C7: a dispatch on A 2 by 3, B 3 by 4, C 2 by 4, where
`m = 4` comes from C's 4 columns although C (and A) have 2 rows. -/
theorem c7_gemm_m_n_k_from_columns_witness :
    Gemm.runF32
      { a := ⟨2, 3, 0, ⟨6⟩, .RowMajor⟩, b := ⟨3, 4, 0, ⟨12⟩, .RowMajor⟩,
        c := ⟨2, 4, 0, ⟨8⟩, .RowMajor⟩, alpha := ⟨0⟩, beta := ⟨0⟩,
        transpose_a := .No, transpose_b := .No } =
      .ok ⟨"CLBlastSgemm", 101, 111, 111, 4, 4, 3, ⟨0⟩, 0, 3, 0, 4, ⟨0⟩, 0, 4⟩ ∧
    (⟨"CLBlastSgemm", 101, 111, 111, 4, 4, 3, ⟨0⟩, 0, 3, 0, 4, ⟨0⟩, 0, 4⟩ :
        GemmCall F32).m = 4 ∧
    (⟨"CLBlastSgemm", 101, 111, 111, 4, 4, 3, ⟨0⟩, 0, 3, 0, 4, ⟨0⟩, 0, 4⟩ :
        GemmCall F32).k = 3 := by
  have h : Gemm.runF32
      { a := ⟨2, 3, 0, ⟨6⟩, .RowMajor⟩, b := ⟨3, 4, 0, ⟨12⟩, .RowMajor⟩,
        c := ⟨2, 4, 0, ⟨8⟩, .RowMajor⟩, alpha := ⟨0⟩, beta := ⟨0⟩,
        transpose_a := .No, transpose_b := .No } =
      .ok ⟨"CLBlastSgemm", 101, 111, 111, 4, 4, 3, ⟨0⟩, 0, 3, 0, 4, ⟨0⟩, 0, 4⟩ := rfl
  exact ⟨h, (c7_gemm_m_n_k_from_columns.1 _ _ h).1,
         (c7_gemm_m_n_k_from_columns.1 _ _ h).2.2⟩

/-- C8: every Gemm dispatch passes the row-major default leading
dimensions `a_ld = a.columns`, `b_ld = b.columns`, `c_ld = c.columns`,
and the choice does not depend on the layout parameter: changing the
layout of all operands changes only the layout tag of the native call. -/
theorem c8_gemm_leading_dims_layout_independent :
    (∀ (p : Gemm F32) call, p.runF32 = .ok call →
      call.a_ld = p.a.columns ∧ call.b_ld = p.b.columns ∧ call.c_ld = p.c.columns) ∧
    (∀ (p : Gemm F64) call, p.runF64 = .ok call →
      call.a_ld = p.a.columns ∧ call.b_ld = p.b.columns ∧ call.c_ld = p.c.columns) ∧
    (∀ (p : Gemm Complex32) call, p.runC32 = .ok call →
      call.a_ld = p.a.columns ∧ call.b_ld = p.b.columns ∧ call.c_ld = p.c.columns) ∧
    (∀ (p : Gemm Complex64) call, p.runC64 = .ok call →
      call.a_ld = p.a.columns ∧ call.b_ld = p.b.columns ∧ call.c_ld = p.c.columns) ∧
    (∀ (L : MatrixLayoutKind) (p : MatrixMultiplication) call, p.run L = .ok call →
      call.a_ld = p.a.columns ∧ call.b_ld = p.b.columns ∧ call.c_ld = p.c.columns) ∧
    (∀ (p : Gemm F32) (L : MatrixLayoutKind),
      Gemm.runF32 (p.withLayout L) =
        (Gemm.runF32 p).map (fun call => { call with layout := L.to_c })) ∧
    (∀ (L1 L2 : MatrixLayoutKind) (p : MatrixMultiplication),
      (p.run L1).map (fun call => { call with layout := L2.to_c }) = p.run L2) := by
  refine ⟨?_, ?_, ?_, ?_, ?_, ?_, ?_⟩
  · intro p call h
    unfold Gemm.runF32 Gemm.assert_dimensions at h
    split_ifs at h <;> (try (injection h with h; subst h)) <;> simp_all
  · intro p call h
    unfold Gemm.runF64 Gemm.assert_dimensions at h
    split_ifs at h <;> (try (injection h with h; subst h)) <;> simp_all
  · intro p call h
    unfold Gemm.runC32 Gemm.assert_dimensions at h
    split_ifs at h <;> (try (injection h with h; subst h)) <;> simp_all
  · intro p call h
    unfold Gemm.runC64 Gemm.assert_dimensions at h
    split_ifs at h <;> (try (injection h with h; subst h)) <;> simp_all
  · intro L p call h
    unfold MatrixMultiplication.run at h
    split_ifs at h <;> (try (injection h with h; subst h)) <;> simp_all
  · intro p L
    have hA : (p.withLayout L).assert_dimensions = p.assert_dimensions := rfl
    unfold Gemm.runF32
    rw [hA]
    cases hk : p.assert_dimensions with
    | error e => rfl
    | ok t => rfl
  · intro L1 L2 p
    unfold MatrixMultiplication.run
    split_ifs <;> rfl

/-- Witness for C8: the leading dimensions of the concrete dispatch on
A 2 by 3, B 3 by 4, C 2 by 4 are 3, 4, 4. -/
theorem c8_gemm_leading_dims_layout_independent_witness :
    Gemm.runF32
      { a := ⟨2, 3, 0, ⟨6⟩, .RowMajor⟩, b := ⟨3, 4, 0, ⟨12⟩, .RowMajor⟩,
        c := ⟨2, 4, 0, ⟨8⟩, .RowMajor⟩, alpha := ⟨0⟩, beta := ⟨0⟩,
        transpose_a := .No, transpose_b := .No } =
      .ok ⟨"CLBlastSgemm", 101, 111, 111, 4, 4, 3, ⟨0⟩, 0, 3, 0, 4, ⟨0⟩, 0, 4⟩ ∧
    (⟨"CLBlastSgemm", 101, 111, 111, 4, 4, 3, ⟨0⟩, 0, 3, 0, 4, ⟨0⟩, 0, 4⟩ :
        GemmCall F32).a_ld = 3 ∧
    (⟨"CLBlastSgemm", 101, 111, 111, 4, 4, 3, ⟨0⟩, 0, 3, 0, 4, ⟨0⟩, 0, 4⟩ :
        GemmCall F32).c_ld = 4 := by
  have h : Gemm.runF32
      { a := ⟨2, 3, 0, ⟨6⟩, .RowMajor⟩, b := ⟨3, 4, 0, ⟨12⟩, .RowMajor⟩,
        c := ⟨2, 4, 0, ⟨8⟩, .RowMajor⟩, alpha := ⟨0⟩, beta := ⟨0⟩,
        transpose_a := .No, transpose_b := .No } =
      .ok ⟨"CLBlastSgemm", 101, 111, 111, 4, 4, 3, ⟨0⟩, 0, 3, 0, 4, ⟨0⟩, 0, 4⟩ := rfl
  exact ⟨h, (c8_gemm_leading_dims_layout_independent.1 _ _ h).1,
         (c8_gemm_leading_dims_layout_independent.1 _ _ h).2.2⟩

/-- C9: descriptors built without their optional fields default alpha to
the scalar type's multiplicative identity, beta to the additive
identity, both transpose flags to `No`, and vector strides to 1; for
`f32` the identity constants are the patterns of `1.0` and `0.0`. -/
theorem c9_builder_defaults :
    (∀ a b c, (MatrixMultiplication.build a b c).alpha = NeutralMul.one ∧
      (MatrixMultiplication.build a b c).beta = NeutralAdd.zero ∧
      (MatrixMultiplication.build a b c).transpose_a = .No ∧
      (MatrixMultiplication.build a b c).transpose_b = .No) ∧
    (∀ a b c, (Gemm.build a b c : Gemm F32).alpha = NeutralMul.one ∧
      (Gemm.build a b c : Gemm F32).beta = NeutralAdd.zero ∧
      (Gemm.build a b c : Gemm F32).transpose_a = .No ∧
      (Gemm.build a b c : Gemm F32).transpose_b = .No) ∧
    (∀ (alpha : F32) n x y, (VectorAxpy.build alpha n x y).x_stride = 1 ∧
      (VectorAxpy.build alpha n x y).y_stride = 1) ∧
    (NeutralMul.one : F32) = ⟨0x3F800000⟩ ∧ (NeutralAdd.zero : F32) = ⟨0⟩ :=
  ⟨fun a b c => ⟨rfl, rfl, rfl, rfl⟩, fun a b c => ⟨rfl, rfl, rfl, rfl⟩,
   fun alpha n x y => ⟨rfl, rfl⟩, rfl, rfl⟩

/-- Witness for C9: the defaults at a concrete buffer triple. -/
theorem c9_builder_defaults_witness :
    (MatrixMultiplication.build ⟨1, 1, 0, ⟨1⟩, .RowMajor⟩ ⟨1, 1, 0, ⟨1⟩, .RowMajor⟩
      ⟨1, 1, 0, ⟨1⟩, .RowMajor⟩).alpha = NeutralMul.one ∧
    (VectorAxpy.build (⟨0⟩ : F32) 1 ⟨⟨2⟩, 0⟩ ⟨⟨2⟩, 0⟩).x_stride = 1 :=
  ⟨(c9_builder_defaults.1 _ _ _).1, (c9_builder_defaults.2.2.1 ⟨0⟩ 1 _ _).1⟩

/-- C10: `MatrixBuffer::new(columns, rows, buffer)` panics exactly when
`rows * columns > buffer.len()`, so every constructed view satisfies
`rows * columns <= buffer.len` with offset 0 and the given dimensions
(none of the core's operations returns an updated view: the embedding
has no operation producing a modified `MatrixBuffer`). -/
theorem c10_matrix_buffer_new_invariant :
    ∀ (L : MatrixLayoutKind) (columns rows : Nat) (buffer : OclBuffer),
      (∀ m, MatrixBuffer.new L columns rows buffer = .ok m →
        m.rows * m.columns ≤ m.buffer.len ∧ m.rows = rows ∧ m.columns = columns ∧
        m.offset = 0 ∧ m.buffer = buffer) ∧
      (rows * columns > buffer.len →
        MatrixBuffer.new L columns rows buffer =
          .error ⟨"assertion failed: rows * columns <= buffer.len()"⟩) := by
  intro L columns rows buffer
  constructor
  · intro m h
    unfold MatrixBuffer.new at h
    split_ifs at h with hle <;> (try (injection h with h; subst h)) <;> simp_all
  · intro hgt
    unfold MatrixBuffer.new
    rw [if_neg (by omega)]

/-- Witness for C10: a 3-row, 2-column view over a 6-element buffer is
constructed with the invariant, and the same view over a 5-element
buffer panics. -/
theorem c10_matrix_buffer_new_invariant_witness :
    ((⟨3, 2, 0, ⟨6⟩, .RowMajor⟩ : MatrixBuffer).rows *
        (⟨3, 2, 0, ⟨6⟩, .RowMajor⟩ : MatrixBuffer).columns ≤
      (⟨3, 2, 0, ⟨6⟩, .RowMajor⟩ : MatrixBuffer).buffer.len) ∧
    MatrixBuffer.new .RowMajor 2 3 ⟨5⟩ =
      .error ⟨"assertion failed: rows * columns <= buffer.len()"⟩ := by
  have h : MatrixBuffer.new .RowMajor 2 3 ⟨6⟩ =
      .ok ⟨3, 2, 0, ⟨6⟩, .RowMajor⟩ := rfl
  exact ⟨((c10_matrix_buffer_new_invariant .RowMajor 2 3 ⟨6⟩).1 _ h).1,
         (c10_matrix_buffer_new_invariant .RowMajor 2 3 ⟨5⟩).2 (by decide)⟩

end Clblast
